import Mathlib

/-!
# Verification of the ctms_service tenant/sport/mapping core

Shallow embedding of the ctms_service repository (FastAPI + SQLAlchemy,
`src/src/...`).  The relational store is modelled as in-memory lists of
rows, one list per table; every service/CRUD function of interest is
translated into a pure Lean function over that state.  `HTTPException`
and Python runtime errors are modelled with an explicit error type and
`Except`.  Timestamps and UUIDs are abstracted as `Nat` / `String`
parameters supplied by the caller (the database generates them in the
source).
-/

namespace CTMS

/-! ## Enumerations (src/src/models) -/

/-- `TenantStatus` enum (models/tenants.py). -/
inductive TenantStatus where
  | active | inactive | suspended | pending | on_hold
deriving DecidableEq, Repr

/-- `SportStatus` enum (models/sports.py). -/
inductive SportStatus where
  | active | inactive | suspended
deriving DecidableEq, Repr

/-- `SportCategory` enum (models/sports.py). -/
inductive SportCategory where
  | racket_sports | field_sports | mixed_sports | other
deriving DecidableEq, Repr

/-- `MappingStatus` enum (models/tenant_sports_mapping.py). -/
inductive MappingStatus where
  | active | inactive
deriving DecidableEq, Repr

/-- String value of a `TenantStatus` member (the `str`-enum value used by
`jsonable_encoder`). -/
def TenantStatus.value : TenantStatus → String
  | .active => "active"
  | .inactive => "inactive"
  | .suspended => "suspended"
  | .pending => "pending"
  | .on_hold => "on_hold"

/-! ## Rows (src/src/models) -/

/-- A row of the `tenants` table (models/tenants.py).  `created_at` and
`updated_at` are abstract instants (`Nat`); `tenant_uuid` is a `String`. -/
structure Tenant where
  id : Nat
  name : String
  tenant_code : String
  logo : Option String
  address : Option String
  tenant_uuid : String
  email : Option String
  description : Option String
  status : TenantStatus
  created_at : Nat
  updated_at : Nat
  is_deleted : Bool
deriving DecidableEq, Repr

/-- A row of the `sports` table (models/sports.py). -/
structure Sport where
  id : Nat
  sport_code : String
  sport_name : String
  category : Option SportCategory
  icon_url : Option String
  status : SportStatus
  description : Option String
  created_at : Nat
  updated_at : Nat
  is_deleted : Bool
deriving DecidableEq, Repr

/-- A row of the `tenant_sports_mapping` table
(models/tenant_sports_mapping.py).  The `desciption` typo is the
source's own column name. -/
structure TenantSportsMapping where
  id : Nat
  tenant_id : Nat
  sport_id : Nat
  status : MappingStatus
  created_by : Option Int
  updated_by : Option Int
  desciption : Option String
  created_at : Nat
  updated_at : Nat
deriving DecidableEq, Repr

/-- The database state visible to the operations under verification:
the three tables plus the auto-increment counter of the mapping table. -/
structure DBState where
  tenants : List Tenant
  sports : List Sport
  mappings : List TenantSportsMapping
  nextMappingId : Nat
deriving DecidableEq, Repr

/-! ## Errors

The source raises `fastapi.HTTPException(status_code, detail)` for
user-facing errors; Python-level failures that matter here are
`AttributeError` (pydantic attribute access on an undeclared field) and
SQLAlchemy's `MultipleResultsFound` (from `scalar_one_or_none`). -/

inductive ApiError where
  | http (status_code : Nat) (detail : String)
  | attributeError (detail : String)
  | multipleResultsFound
deriving DecidableEq, Repr

/-! ## Python / SQLAlchemy primitives -/

/-- SQLAlchemy `Result.scalar_one_or_none()`: `none` on an empty result,
the row on a singleton, and `MultipleResultsFound` otherwise. -/
def scalarOneOrNone {α : Type} (rows : List α) : Except ApiError (Option α) :=
  match rows with
  | [] => Except.ok none
  | [a] => Except.ok (some a)
  | _ :: _ :: _ => Except.error ApiError.multipleResultsFound

/-- Python `x or d` for an optional integer `x` (`None` and `0` are falsy). -/
def pyOrInt (x : Option Int) (d : Int) : Int :=
  match x with
  | none => d
  | some v => if v = 0 then d else v

/-- Python `str.isalnum()` restricted to the ASCII alphabet used by the
tenant codes in this service: nonempty and every character alphanumeric. -/
def pyIsAlnum (s : String) : Bool :=
  !s.data.isEmpty && s.data.all Char.isAlphanum

/-- Python `str.upper()` (ASCII). -/
def pyUpper (s : String) : String :=
  ⟨s.data.map Char.toUpper⟩

/-- Python `str.lower()` (ASCII). -/
def pyLower (s : String) : String :=
  ⟨s.data.map Char.toLower⟩

/-- Does `needle` occur at the head of `hay`? -/
def charsMatchAt : List Char → List Char → Bool
  | _, [] => true
  | [], _ :: _ => false
  | h :: ht, n :: nt => h == n && charsMatchAt ht nt

/-- Does `needle` occur anywhere inside `hay`? -/
def hasSubstring (hay needle : List Char) : Bool :=
  match hay with
  | [] => charsMatchAt [] needle
  | c :: t => charsMatchAt (c :: t) needle || hasSubstring t needle

/-- SQL `column ILIKE '%term%'`: case-insensitive substring match, as used
by the `search` filters on two text columns. -/
def ilike (column term : String) : Bool :=
  hasSubstring (pyLower column).data (pyLower term).data

/-! ## CRUD layer (src/src/crud) -/

/-- `CRUDBase.get` (crud/base.py lines 35-38) for the tenants table:
`select(model).filter(model.id == id)` then `scalar_one_or_none`. -/
def CRUDTenant.get (db : DBState) (id : Nat) : Except ApiError (Option Tenant) :=
  scalarOneOrNone (db.tenants.filter (fun t => decide (t.id = id)))

/-- `CRUDSport.get` (crud/base.py lines 35-38 for the sports table). -/
def CRUDSport.get (db : DBState) (id : Nat) : Except ApiError (Option Sport) :=
  scalarOneOrNone (db.sports.filter (fun s => decide (s.id = id)))

/-- `CRUDTenant.get_by_code` (crud/tenant.py lines 17-22):
`select(Tenant).filter(Tenant.tenant_code == tenant_code)` then
`scalar_one_or_none` — note: no soft-delete filter. -/
def CRUDTenant.get_by_code (db : DBState) (tenant_code : String) :
    Except ApiError (Option Tenant) :=
  scalarOneOrNone (db.tenants.filter (fun t => decide (t.tenant_code = tenant_code)))

/-- `CRUDTenant.validate_exists` (crud/tenant.py lines 24-48):
`count(*) where id = tenant_id and is_deleted = false`, returned as
`count > 0`. -/
def CRUDTenant.validate_exists (db : DBState) (tenant_id : Nat) : Bool :=
  decide (0 < (db.tenants.countP
    (fun t => decide (t.id = tenant_id ∧ t.is_deleted = false))))

/-- `CRUDSport.validate_sports_exist` (crud/sports.py lines 78-116).
Queries `(id, is_deleted)` for all rows with `id IN sport_ids`, builds the
set of non-deleted found ids (`valid_sport_ids`) and the set of all found
ids, and lists every requested id that is missing or deleted.  Python sets
are modelled as deduplicated lists (only lengths and membership are used
downstream). -/
def CRUDSport.validate_sports_exist (db : DBState) (sport_ids : List Nat) :
    List Nat × List Nat :=
  if sport_ids.isEmpty then ([], [])
  else
    let sport_rows := db.sports.filter (fun s => decide (s.id ∈ sport_ids))
    let valid_sport_ids :=
      ((sport_rows.filter (fun s => s.is_deleted = false)).map Sport.id).dedup
    let all_found_ids := (sport_rows.map Sport.id).dedup
    let invalid_sport_ids := sport_ids.filter
      (fun sid => decide (sid ∉ all_found_ids ∨ sid ∉ valid_sport_ids))
    (valid_sport_ids, invalid_sport_ids)

/-- `CRUDTenantSportsMapping.get_by_tenant_and_sport` (crud/tenant_sports_mapping.py
lines 19-35): filter on both key columns, `scalar_one_or_none`. -/
def CRUDTenantSportsMapping.get_by_tenant_and_sport (db : DBState)
    (tenant_id sport_id : Nat) : Except ApiError (Option TenantSportsMapping) :=
  scalarOneOrNone (db.mappings.filter
    (fun m => decide (m.tenant_id = tenant_id ∧ m.sport_id = sport_id)))

/-- `CRUDTenantSportsMapping.count_existing_mappings` (crud/tenant_sports_mapping.py
lines 88-116): `count(*) where tenant_id = T and sport_id in sport_ids`
(`0` for an empty id list). -/
def CRUDTenantSportsMapping.count_existing_mappings (db : DBState)
    (tenant_id : Nat) (sport_ids : List Nat) : Nat :=
  if sport_ids.isEmpty then 0
  else db.mappings.countP
    (fun m => decide (m.tenant_id = tenant_id ∧ m.sport_id ∈ sport_ids))

/-- The validated creation payload `TenantSportsMappingCreate`
(schema/tenant_sports_mapping.py). -/
structure TenantSportsMappingCreate where
  tenant_id : Nat
  sport_id : Nat
  status : MappingStatus
  desciption : Option String
  created_by : Option Int
deriving DecidableEq, Repr

/-- Row construction performed by `CRUDTenantSportsMapping.bulk_create`:
one `TenantSportsMapping` instance per payload, with ids assigned
sequentially by the store's auto-increment counter and both timestamps
set at the commit instant `now`. -/
def buildMappingRows (startId now : Nat) :
    List TenantSportsMappingCreate → List TenantSportsMapping
  | [] => []
  | mc :: rest =>
      { id := startId, tenant_id := mc.tenant_id, sport_id := mc.sport_id,
        status := mc.status, created_by := mc.created_by, updated_by := none,
        desciption := mc.desciption, created_at := now, updated_at := now } ::
      buildMappingRows (startId + 1) now rest

/-- `CRUDTenantSportsMapping.bulk_create` (crud/tenant_sports_mapping.py
lines 118-158): returns `[]` untouched for an empty payload, otherwise
adds all rows to the session and commits once. -/
def CRUDTenantSportsMapping.bulk_create (db : DBState)
    (mappings : List TenantSportsMappingCreate) (now : Nat) :
    DBState × List TenantSportsMapping :=
  if mappings.isEmpty then (db, [])
  else
    let db_objs := buildMappingRows db.nextMappingId now mappings
    ({ db with
        mappings := db.mappings ++ db_objs,
        nextMappingId := db.nextMappingId + db_objs.length },
     db_objs)

/-! ## Bulk registration workflow (src/src/service/tenant_sports_mapping.py) -/

/-- One entry of the bulk-register request body (`RegisterSportItem`). -/
structure RegisterSportItem where
  sport_id : Nat
  desciption : Option String
deriving DecidableEq, Repr

/-- The bulk-register request body (`BulkRegisterSportRequest`). -/
structure BulkRegisterSportRequest where
  sports : List RegisterSportItem
  created_by : Option Int
deriving DecidableEq, Repr

/-- The `mapping_data_list` built by `bulk_register_sports` (lines
229-238): one payload per element of the raw `request.sports` list, all
with status ACTIVE and `created_by = request.created_by or 1`. -/
def bulkPayload (tenant_id : Nat) (request : BulkRegisterSportRequest) :
    List TenantSportsMappingCreate :=
  request.sports.map (fun sport =>
    { tenant_id := tenant_id, sport_id := sport.sport_id,
      status := MappingStatus.active, desciption := sport.desciption,
      created_by := some (pyOrInt request.created_by 1) })

/-- `TenantSportsMappingService.bulk_register_sports`
(service/tenant_sports_mapping.py lines 165-246), step by step:
empty-request check; `sport_ids = list(set(...))`; tenant validation via
`validate_exists`; sport validation via `validate_sports_exist` compared
by length; duplicate detection via `count_existing_mappings`; then one
payload per element of `request.sports` (the raw, non-deduplicated list)
handed to `bulk_create`.  An error result performs no write: every check
precedes the single commit inside `bulk_create`. -/
def TenantSportsMappingService.bulk_register_sports (db : DBState)
    (tenant_id : Nat) (request : BulkRegisterSportRequest) (now : Nat) :
    Except ApiError (DBState × List TenantSportsMapping) :=
  if request.sports.isEmpty then
    Except.error (ApiError.http 400 "At least one sport must be provided")
  else
    let sport_ids := (request.sports.map RegisterSportItem.sport_id).dedup
    if CRUDTenant.validate_exists db tenant_id = false then
      Except.error (ApiError.http 404
        s!"Tenant with ID {tenant_id} not found or has been deleted")
    else
      let valid_sport_ids := (CRUDSport.validate_sports_exist db sport_ids).1
      if valid_sport_ids.length ≠ sport_ids.length then
        Except.error (ApiError.http 404
          "One or more sports not found or have been deleted")
      else
        let existing_count :=
          CRUDTenantSportsMapping.count_existing_mappings db tenant_id sport_ids
        if 0 < existing_count then
          Except.error (ApiError.http 400
            "One or more sports are already registered for this tenant")
        else
          Except.ok (CRUDTenantSportsMapping.bulk_create db
            (bulkPayload tenant_id request) now)

/-- The state after a `bulk_register_sports` call: the new state on
success, the unchanged input state on error (validation failures roll the
transaction back before any write; in the source no write has even been
issued at that point). -/
def bulkRegisterFinalState (db : DBState) (tenant_id : Nat)
    (request : BulkRegisterSportRequest) (now : Nat) : DBState :=
  match TenantSportsMappingService.bulk_register_sports db tenant_id request now with
  | Except.ok (db', _) => db'
  | Except.error _ => db

/-! ## Validity predicates used in the claims -/

/-- Tenant `id` exists and is not soft-deleted. -/
abbrev tenantValid (db : DBState) (id : Nat) : Prop :=
  ∃ t ∈ db.tenants, t.id = id ∧ t.is_deleted = false

/-- Sport `id` exists and is not soft-deleted. -/
abbrev sportValid (db : DBState) (id : Nat) : Prop :=
  ∃ s ∈ db.sports, s.id = id ∧ s.is_deleted = false

/-- A mapping row for the pair `(tenant_id, sport_id)` exists. -/
abbrev pairExists (db : DBState) (tenant_id sport_id : Nat) : Prop :=
  ∃ m ∈ db.mappings, m.tenant_id = tenant_id ∧ m.sport_id = sport_id

/-- Number of mapping rows for the pair `(tenant_id, sport_id)`. -/
abbrev pairCount (db : DBState) (tenant_id sport_id : Nat) : Nat :=
  db.mappings.countP (fun m => decide (m.tenant_id = tenant_id ∧ m.sport_id = sport_id))

/-- The application-layer invariant of §3: at most one mapping row per
`(tenant_id, sport_id)` pair (phrased over the rows so that it is
decidable on concrete states). -/
abbrev mappingPairUnique (db : DBState) : Prop :=
  ∀ m ∈ db.mappings, pairCount db m.tenant_id m.sport_id ≤ 1

/-- Primary keys of the sports table are unique. -/
abbrev sportIdsNodup (db : DBState) : Prop :=
  (db.sports.map Sport.id).Nodup

/-- Primary keys of the tenants table are unique. -/
abbrev tenantIdsNodup (db : DBState) : Prop :=
  (db.tenants.map Tenant.id).Nodup

/-- Tenant codes are unique across all rows (the store-level unique
constraint on `tenant_code`, soft-deleted rows included). -/
abbrev tenantCodesNodup (db : DBState) : Prop :=
  (db.tenants.map Tenant.tenant_code).Nodup

/-- The requested sport ids of a bulk-register request, in request order
(not deduplicated). -/
abbrev reqSportIds (request : BulkRegisterSportRequest) : List Nat :=
  request.sports.map RegisterSportItem.sport_id

/-! ## Tenant-code validation (src/src/schema/tenant.py) -/

/-- `TenantBase.validate_tenant_code` (schema/tenant.py lines 18-23) and
the identical check in `TenantUpdate.validate_tenant_code` (lines 41-48):
`if not v.isalnum() and not ('_' in v): raise ValueError(...)`, otherwise
return `v.upper()`. -/
def validate_tenant_code (v : String) : Except String String :=
  if pyIsAlnum v = false ∧ v.data.contains '_' = false then
    Except.error "tenant_code must be alphanumeric or contain underscores"
  else Except.ok (pyUpper v)

/-- Modelled from the spec: "unique tenant_code (normalized uppercase,
alphanumeric+underscore)" — the accept condition claimed by C4: the code
consists only of alphanumeric characters and underscores. -/
def specTenantCodeOk (v : String) : Bool :=
  v.data.all (fun c => c.isAlphanum || c == '_')

/-! ## Encoded rows and the generic partial update (src/src/crud/base.py) -/

/-- A JSON-encodable Python value, the codomain of `jsonable_encoder`:
dates are encoded as their abstract instant, enums as their string
value. -/
inductive PyVal where
  | str (s : String)
  | num (n : Int)
  | bool (b : Bool)
  | null
deriving DecidableEq, Repr

/-- Encoding of an optional string column. -/
def pyOptStr : Option String → PyVal
  | some s => PyVal.str s
  | none => PyVal.null

/-- Encoding of an optional integer column. -/
def pyOptInt : Option Int → PyVal
  | some n => PyVal.num n
  | none => PyVal.null

/-- String value of a `MappingStatus` member. -/
def MappingStatus.value : MappingStatus → String
  | .active => "active"
  | .inactive => "inactive"

/-- Python dict lookup over an ordered association list. -/
def lookupPy (l : List (String × PyVal)) (f : String) : Option PyVal :=
  match l with
  | [] => none
  | (k, v) :: t => if k = f then some v else lookupPy t f

/-- `jsonable_encoder(db_obj)` for a tenant row: the dict of its column
attributes in declaration order (crud/base.py line 86). -/
def jsonableTenant (t : Tenant) : List (String × PyVal) :=
  [("id", PyVal.num (t.id : Int)), ("name", PyVal.str t.name),
   ("tenant_code", PyVal.str t.tenant_code), ("logo", pyOptStr t.logo),
   ("address", pyOptStr t.address), ("tenant_uuid", PyVal.str t.tenant_uuid),
   ("email", pyOptStr t.email), ("description", pyOptStr t.description),
   ("status", PyVal.str t.status.value),
   ("created_at", PyVal.num (t.created_at : Int)),
   ("updated_at", PyVal.num (t.updated_at : Int)),
   ("is_deleted", PyVal.bool t.is_deleted)]

/-- `jsonable_encoder(db_obj)` for a mapping row. -/
def jsonableMapping (m : TenantSportsMapping) : List (String × PyVal) :=
  [("id", PyVal.num (m.id : Int)), ("tenant_id", PyVal.num (m.tenant_id : Int)),
   ("sport_id", PyVal.num (m.sport_id : Int)),
   ("status", PyVal.str m.status.value), ("created_by", pyOptInt m.created_by),
   ("updated_by", pyOptInt m.updated_by),
   ("desciption", pyOptStr m.desciption),
   ("created_at", PyVal.num (m.created_at : Int)),
   ("updated_at", PyVal.num (m.updated_at : Int))]

/-- The field loop of `CRUDBase.update` (crud/base.py lines 96-98):
`for field in obj_data: if field in update_data: setattr(db_obj, field,
update_data[field])`. -/
def applyUpdateData (obj_data update_data : List (String × PyVal)) :
    List (String × PyVal) :=
  obj_data.map (fun kv =>
    match lookupPy update_data kv.1 with
    | some v => (kv.1, v)
    | none => kv)

/-- The `updated_at` column refresh performed by the store at commit
(`onupdate=func.current_timestamp()`, models/tenants.py). -/
def refreshUpdatedAt (now : Nat) (kv : String × PyVal) : String × PyVal :=
  if kv.1 = "updated_at" then (kv.1, PyVal.num (now : Int)) else kv

/-- `CRUDBase.update` (crud/base.py lines 78-103): apply the
explicitly-set fields of the partial input, then commit — at which point
the `updated_at` column refreshes. -/
def CRUDBase.update (obj_data update_data : List (String × PyVal)) (now : Nat) :
    List (String × PyVal) :=
  (applyUpdateData obj_data update_data).map (refreshUpdatedAt now)

/-! ## Pydantic update schemas (src/src/schema)

Each field of an update schema is wrapped in an outer `Option` recording
whether the field was explicitly present in the request body
(pydantic's `exclude_unset`); the inner value is the field itself, whose
own `Option` admits an explicit `null`. -/

/-- `TenantUpdate` (schema/tenant.py lines 31-48). -/
structure TenantUpdate where
  name : Option (Option String)
  tenant_code : Option (Option String)
  logo : Option (Option String)
  address : Option (Option String)
  email : Option (Option String)
  description : Option (Option String)
  status : Option (Option TenantStatus)
deriving DecidableEq, Repr

/-- `tenant_in.model_dump(exclude_unset=True)`: the explicitly-set fields
in declaration order, jsonable-encoded. -/
def tenantUpdateDump (u : TenantUpdate) : List (String × PyVal) :=
  (match u.name with | some v => [("name", pyOptStr v)] | none => []) ++
  (match u.tenant_code with | some v => [("tenant_code", pyOptStr v)] | none => []) ++
  (match u.logo with | some v => [("logo", pyOptStr v)] | none => []) ++
  (match u.address with | some v => [("address", pyOptStr v)] | none => []) ++
  (match u.email with | some v => [("email", pyOptStr v)] | none => []) ++
  (match u.description with | some v => [("description", pyOptStr v)] | none => []) ++
  (match u.status with
    | some (some st) => [("status", PyVal.str st.value)]
    | some none => [("status", PyVal.null)]
    | none => [])

/-- `TenantSportsMappingUpdate` (schema/tenant_sports_mapping.py lines 20-24). -/
structure TenantSportsMappingUpdate where
  status : Option (Option MappingStatus)
  desciption : Option (Option String)
  updated_by : Option (Option Int)
deriving DecidableEq, Repr

/-- `mapping_in.model_dump(exclude_unset=True)`. -/
def mappingUpdateDump (u : TenantSportsMappingUpdate) : List (String × PyVal) :=
  (match u.status with
    | some (some st) => [("status", PyVal.str st.value)]
    | some none => [("status", PyVal.null)]
    | none => []) ++
  (match u.desciption with | some v => [("desciption", pyOptStr v)] | none => []) ++
  (match u.updated_by with | some v => [("updated_by", pyOptInt v)] | none => [])

/-! ## Tenant service (src/src/service/tenant.py) -/

/-- `TenantService.get_tenant` (service/tenant.py lines 21-63, without the
`include_sports` relationship reload, which does not affect the returned
error behaviour): 404 when absent, 404 when soft-deleted. -/
def TenantService.get_tenant (db : DBState) (tenant_id : Nat) :
    Except ApiError Tenant := do
  let topt ← CRUDTenant.get db tenant_id
  match topt with
  | none =>
    Except.error (ApiError.http 404 s!"Tenant with ID {tenant_id} not found")
  | some t =>
    if t.is_deleted then
      Except.error (ApiError.http 404 s!"Tenant with ID {tenant_id} has been deleted")
    else Except.ok t

/-- `TenantService.get_tenant_by_code` (service/tenant.py lines 99-120):
`if not tenant_obj or tenant_obj.is_deleted: raise 404` (detail quotes
around the code elided). -/
def TenantService.get_tenant_by_code (db : DBState) (tenant_code : String) :
    Except ApiError Tenant := do
  let topt ← CRUDTenant.get_by_code db tenant_code
  match topt with
  | none =>
    Except.error (ApiError.http 404 s!"Tenant with code {tenant_code} not found")
  | some t =>
    if t.is_deleted then
      Except.error (ApiError.http 404 s!"Tenant with code {tenant_code} not found")
    else Except.ok t

/-- The validated creation payload `TenantCreate` (schema/tenant.py lines
26-28): `TenantBase` fields plus the optional UUID. -/
structure TenantCreate where
  name : String
  tenant_code : String
  logo : Option String
  address : Option String
  email : Option String
  description : Option String
  status : TenantStatus
  tenant_uuid : Option String
deriving DecidableEq, Repr

/-- `TenantService.create_tenant` (service/tenant.py lines 145-178):
conflict when `get_by_code` finds any row (soft-deleted included), else
insert with a server-generated UUID when none was supplied.
`generated_uuid`, `new_id` and `now` stand for the values produced by
`uuid4()` and the database on commit.  `createdTenant` is the row built
from the payload (server-generated UUID when none was supplied). -/
def createdTenant (tenant_in : TenantCreate) (generated_uuid : String)
    (new_id now : Nat) : Tenant :=
  { id := new_id, name := tenant_in.name,
    tenant_code := tenant_in.tenant_code, logo := tenant_in.logo,
    address := tenant_in.address,
    tenant_uuid := match tenant_in.tenant_uuid with
      | some u => u
      | none => generated_uuid,
    email := tenant_in.email, description := tenant_in.description,
    status := tenant_in.status, created_at := now, updated_at := now,
    is_deleted := false }

def TenantService.create_tenant (db : DBState) (tenant_in : TenantCreate)
    (generated_uuid : String) (new_id now : Nat) :
    Except ApiError (DBState × Tenant) :=
  match CRUDTenant.get_by_code db tenant_in.tenant_code with
  | Except.error e => Except.error e
  | Except.ok (some _) =>
    Except.error (ApiError.http 400
      s!"Tenant with code {tenant_in.tenant_code} already exists")
  | Except.ok none =>
    Except.ok
      ({ db with tenants :=
          db.tenants ++ [createdTenant tenant_in generated_uuid new_id now] },
       createdTenant tenant_in generated_uuid new_id now)

/-- The conflict check of `TenantService.update_tenant` (service/tenant.py
lines 202-209): only when the input carries a truthy `tenant_code`
different from the current one, look the new code up and reject if it
belongs to a different row. -/
def tenantUpdateCodeCheck (db : DBState) (tenant_id : Nat)
    (tenant_obj : Tenant) (tenant_in : TenantUpdate) : Except ApiError Unit :=
  match tenant_in.tenant_code.join with
  | some c =>
    if c.data.isEmpty = false ∧ c ≠ tenant_obj.tenant_code then
      match CRUDTenant.get_by_code db c with
      | Except.error e => Except.error e
      | Except.ok (some e) =>
        if e.id ≠ tenant_id then
          Except.error (ApiError.http 400 s!"Tenant with code {c} already exists")
        else Except.ok ()
      | Except.ok none => Except.ok ()
    else Except.ok ()
  | none => Except.ok ()

/-- `TenantService.update_tenant` (service/tenant.py lines 180-211):
existence check, conflict check, then the generic partial update of
`CRUDBase.update` on the fetched row.  The result is the committed row in
encoded form. -/
def TenantService.update_tenant (db : DBState) (tenant_id : Nat)
    (tenant_in : TenantUpdate) (now : Nat) :
    Except ApiError (List (String × PyVal)) :=
  match TenantService.get_tenant db tenant_id with
  | Except.error e => Except.error e
  | Except.ok tenant_obj =>
    match tenantUpdateCodeCheck db tenant_id tenant_obj tenant_in with
    | Except.error e => Except.error e
    | Except.ok _ =>
      Except.ok (CRUDBase.update (jsonableTenant tenant_obj)
        (tenantUpdateDump tenant_in) now)

/-! ## Mapping update by composite key (service/tenant_sports_mapping.py) -/

/-- `TenantSportsMappingService.update_mapping_by_tenant_sport`
(service/tenant_sports_mapping.py lines 327-361): look the mapping up by
`(tenant_id, sport_id)`, 404 when absent, else apply the generic partial
update — no tenant or sport existence or soft-delete check on this path. -/
def TenantSportsMappingService.update_mapping_by_tenant_sport (db : DBState)
    (tenant_id sport_id : Nat) (mapping_in : TenantSportsMappingUpdate)
    (now : Nat) : Except ApiError (List (String × PyVal)) := do
  let mopt ← CRUDTenantSportsMapping.get_by_tenant_and_sport db tenant_id sport_id
  match mopt with
  | none =>
    Except.error (ApiError.http 404
      s!"Mapping for tenant {tenant_id} and sport {sport_id} not found")
  | some m =>
    Except.ok (CRUDBase.update (jsonableMapping m) (mappingUpdateDump mapping_in) now)

/-! ## Sport listing (src/src/crud/sports.py, src/src/service/sports.py) -/

/-- `SportQueryParams` (schema/sports.py lines 80-91). -/
structure SportQueryParams where
  skip : Nat
  limit : Nat
  status : Option SportStatus
  category : Option SportCategory
  search_id : Option Nat
  search : Option String
  include_deleted : Bool
deriving DecidableEq, Repr

/-- The WHERE clause accumulated on `base_query` by `CRUDSport.get_multi`
(crud/sports.py lines 134-161): soft-delete filter unless
`include_deleted`, then status, category, id, and the case-insensitive
two-column substring search (skipped for a falsy — absent or empty —
`search`). -/
def sportBaseFilter (qp : SportQueryParams) (s : Sport) : Bool :=
  (qp.include_deleted || s.is_deleted = false)
  && (match qp.status with
      | some st => decide (s.status = st)
      | none => true)
  && (match qp.category with
      | some c => decide (s.category = some c)
      | none => true)
  && (match qp.search_id with
      | some i => decide (s.id = i)
      | none => true)
  && (match qp.search with
      | some term =>
        if term.data.isEmpty then true
        else ilike s.sport_name term || ilike s.sport_code term
      | none => true)

/-- The WHERE clause accumulated on `count_query` by `CRUDSport.get_multi`
(crud/sports.py lines 163-186) — the source repeats the filter
construction for the count query; this is the second copy. -/
def sportCountFilter (qp : SportQueryParams) (s : Sport) : Bool :=
  (qp.include_deleted || s.is_deleted = false)
  && (match qp.status with
      | some st => decide (s.status = st)
      | none => true)
  && (match qp.category with
      | some c => decide (s.category = some c)
      | none => true)
  && (match qp.search_id with
      | some i => decide (s.id = i)
      | none => true)
  && (match qp.search with
      | some term =>
        if term.data.isEmpty then true
        else ilike s.sport_name term || ilike s.sport_code term
      | none => true)

/-- `CRUDSport.get_multi` (crud/sports.py lines 118-196): the count query
runs with no offset/limit; the data query applies
`offset(skip).limit(limit)`. -/
def CRUDSport.get_multi (db : DBState) (qp : SportQueryParams) :
    List Sport × Nat :=
  let base := db.sports.filter (sportBaseFilter qp)
  let total_count := (db.sports.filter (sportCountFilter qp)).length
  ((base.drop qp.skip).take qp.limit, total_count)

/-- The pagination envelope `PaginatedData` (utils/response.py). -/
structure PaginatedData (α : Type) where
  items : List α
  total_count : Nat
  has_next_page : Bool
  skip : Nat
  limit : Nat
deriving DecidableEq, Repr

/-- `SportService.get_sports` (service/sports.py lines 44-76):
`has_next_page = (skip + limit) < total_count`. -/
def SportService.get_sports (db : DBState) (qp : SportQueryParams) :
    PaginatedData Sport :=
  let r := CRUDSport.get_multi db qp
  { items := r.1, total_count := r.2,
    has_next_page := decide (qp.skip + qp.limit < r.2),
    skip := qp.skip, limit := qp.limit }

/-! ## Tenant listing (src/src/crud/tenant.py, src/src/service/tenant.py) -/

/-- `TenantQueryParams` (schema/tenant.py lines 79-89). -/
structure TenantQueryParams where
  skip : Nat
  limit : Nat
  status : Option TenantStatus
  search_id : Option Nat
  search : Option String
  include_deleted : Bool
deriving DecidableEq, Repr

/-- The fields declared by the `TenantQueryParams` pydantic schema
(schema/tenant.py lines 79-89), in declaration order. -/
def tenantQueryParamsFields : List String :=
  ["skip", "limit", "status", "search_id", "search", "include_deleted"]

/-- The attribute access `query_params.sports_id` performed by
`CRUDTenant._apply_filters` (crud/tenant.py line 107).  Pydantic models
raise `AttributeError` for attributes outside the declared field set, and
`sports_id` is not among `tenantQueryParamsFields`, so the access fails.
(The `ok` branch is what the read would return if the schema declared the
field; it is unreachable for the schema as written.) -/
def tqpGetSportsId (_qp : TenantQueryParams) : Except ApiError (Option Nat) :=
  if tenantQueryParamsFields.contains "sports_id" then Except.ok none
  else Except.error (ApiError.attributeError
    "TenantQueryParams object has no attribute sports_id")

/-- `CRUDTenant._apply_filters` (crud/tenant.py lines 94-137): reads
`query_params.sports_id` first (inner join with the mapping table on a
match, with fan-out duplicating a tenant once per matching mapping row),
then the soft-delete, status, id and search filters. -/
def CRUDTenant.apply_filters (db : DBState) (qp : TenantQueryParams) :
    Except ApiError (List Tenant) := do
  let sports_id ← tqpGetSportsId qp
  let q0 := match sports_id with
    | some sid =>
      (db.tenants.map (fun t =>
        (db.mappings.filter
          (fun m => decide (m.tenant_id = t.id ∧ m.sport_id = sid))).map
          (fun _ => t))).flatten
    | none => db.tenants
  let q1 := if qp.include_deleted = false
    then q0.filter (fun t => t.is_deleted = false) else q0
  let q2 := match qp.status with
    | some st => q1.filter (fun t => decide (t.status = st))
    | none => q1
  let q3 := match qp.search_id with
    | some sid => q2.filter (fun t => decide (t.id = sid))
    | none => q2
  let q4 := match qp.search with
    | some term =>
      if term.data.isEmpty then q3
      else q3.filter (fun t => ilike t.name term || ilike t.tenant_code term)
    | none => q3
  Except.ok q4

/-- `CRUDTenant.get_multi` (crud/tenant.py lines 139-183): the data query
and the count query share `_apply_filters`; with a `sports_id` filter the
count is `count(distinct Tenant.id)` and the data query is `distinct()`. -/
def CRUDTenant.get_multi (db : DBState) (qp : TenantQueryParams) :
    Except ApiError (List Tenant × Nat) := do
  let base ← CRUDTenant.apply_filters db qp
  let sports_id ← tqpGetSportsId qp
  let counted ← CRUDTenant.apply_filters db qp
  let total_count := match sports_id with
    | some _ => ((counted.map Tenant.id).dedup).length
    | none => counted.length
  let items := match sports_id with
    | some _ => (base.dedup.drop qp.skip).take qp.limit
    | none => (base.drop qp.skip).take qp.limit
  Except.ok (items, total_count)

/-- `TenantService.get_tenants` (service/tenant.py lines 65-97). -/
def TenantService.get_tenants (db : DBState) (qp : TenantQueryParams) :
    Except ApiError (PaginatedData Tenant) := do
  let r ← CRUDTenant.get_multi db qp
  Except.ok
    { items := r.1
      total_count := r.2
      has_next_page := decide (qp.skip + qp.limit < r.2)
      skip := qp.skip
      limit := qp.limit }

/-! ## Concrete fixtures used by witnesses and counterexamples -/

/-- A live tenant with id 1. -/
def tenantOne : Tenant :=
  { id := 1, name := "Acme", tenant_code := "ACME", logo := none, address := none,
    tenant_uuid := "uuid-1", email := none, description := none,
    status := TenantStatus.active, created_at := 0, updated_at := 0,
    is_deleted := false }

/-- A soft-deleted tenant with id 2. -/
def tenantTwoDeleted : Tenant :=
  { id := 2, name := "Gone", tenant_code := "GONE", logo := none, address := none,
    tenant_uuid := "uuid-2", email := none, description := none,
    status := TenantStatus.active, created_at := 0, updated_at := 0,
    is_deleted := true }

/-- A live sport with id 1. -/
def sportOne : Sport :=
  { id := 1, sport_code := "BAS1", sport_name := "Basketball", category := none,
    icon_url := none, status := SportStatus.active, description := none,
    created_at := 0, updated_at := 0, is_deleted := false }

/-- A live sport with id 2. -/
def sportTwo : Sport :=
  { id := 2, sport_code := "TEN1", sport_name := "Tennis", category := none,
    icon_url := none, status := SportStatus.active, description := none,
    created_at := 0, updated_at := 0, is_deleted := false }

/-- Base state: two tenants (the second soft-deleted), two live sports,
no mappings. -/
def dbBase : DBState :=
  { tenants := [tenantOne, tenantTwoDeleted], sports := [sportOne, sportTwo],
    mappings := [], nextMappingId := 1 }

/-- An existing mapping row (tenant 1, sport 1). -/
def mappingOne : TenantSportsMapping :=
  { id := 1, tenant_id := 1, sport_id := 1, status := MappingStatus.active,
    created_by := some 1, updated_by := none, desciption := none,
    created_at := 0, updated_at := 0 }

/-- State in which sport 1 is already registered for tenant 1. -/
def dbWithMapping : DBState :=
  { dbBase with mappings := [mappingOne], nextMappingId := 2 }

/-- A bulk request listing the same sport id twice. -/
def requestDupSport : BulkRegisterSportRequest :=
  { sports := [⟨1, none⟩, ⟨1, none⟩], created_by := none }

/-- A bulk request for sports 1 and 2. -/
def requestTwoSports : BulkRegisterSportRequest :=
  { sports := [⟨1, none⟩, ⟨2, none⟩], created_by := none }

/-- A bulk request for sport 1 only. -/
def requestSportOne : BulkRegisterSportRequest :=
  { sports := [⟨1, none⟩], created_by := none }

/-- Sport listing parameters: first page of one item. -/
def sportQPa : SportQueryParams :=
  { skip := 0, limit := 1, status := none, category := none,
    search_id := none, search := none, include_deleted := false }

/-- The same filters with different pagination. -/
def sportQPb : SportQueryParams :=
  { sportQPa with skip := 5, limit := 100 }

/-- Tenant listing parameters with `include_deleted = true`. -/
def tenantQPincludeDeleted : TenantQueryParams :=
  { skip := 0, limit := 100, status := none, search_id := none,
    search := none, include_deleted := true }

/-- A state whose only tenant is soft-deleted yet still has a mapping
row: `(tenant 2, sport 1)`. -/
def dbDeletedTenantWithMapping : DBState :=
  { tenants := [tenantTwoDeleted], sports := [sportOne],
    mappings := [{ mappingOne with tenant_id := 2 }], nextMappingId := 2 }

/-- A partial tenant update setting only `status`. -/
def updStatusOnly : TenantUpdate :=
  { name := none, tenant_code := none, logo := none, address := none,
    email := none, description := none,
    status := some (some TenantStatus.inactive) }

/-- A partial tenant update renaming the code to `ACME2`. -/
def updCodeOnly : TenantUpdate :=
  { name := none, tenant_code := some (some "ACME2"), logo := none,
    address := none, email := none, description := none, status := none }

/-- A creation payload reusing the existing code `ACME`. -/
def createAcme : TenantCreate :=
  { name := "Acme again", tenant_code := "ACME", logo := none, address := none,
    email := none, description := none, status := TenantStatus.active,
    tenant_uuid := none }

/-- A mapping update setting the status to inactive. -/
def mappingUpdInactive : TenantSportsMappingUpdate :=
  { status := some (some MappingStatus.inactive), desciption := none,
    updated_by := none }

/-! ## Helper lemmas -/

theorem scalarOneOrNone_eq_head {α : Type} {l : List α} (h : l.length ≤ 1) :
    scalarOneOrNone l = Except.ok l.head? := by
  match l with
  | [] => rfl
  | [a] => rfl
  | a :: b :: t => simp at h

theorem validate_exists_iff {db : DBState} {tid : Nat} :
    CRUDTenant.validate_exists db tid = true ↔ tenantValid db tid := by
  simp [CRUDTenant.validate_exists, tenantValid, List.countP_pos_iff]

theorem count_existing_pos_iff {db : DBState} {tid : Nat} {ids : List Nat} :
    0 < CRUDTenantSportsMapping.count_existing_mappings db tid ids ↔
      ∃ sid ∈ ids, pairExists db tid sid := by
  unfold CRUDTenantSportsMapping.count_existing_mappings
  split
  · rename_i hids
    rw [List.isEmpty_iff] at hids
    subst hids
    simp
  · rw [List.countP_pos_iff]
    constructor
    · rintro ⟨m, hm, hp⟩
      rw [decide_eq_true_eq] at hp
      exact ⟨m.sport_id, hp.2, m, hm, hp.1, rfl⟩
    · rintro ⟨sid, hsid, m, hm, ht, hs⟩
      exact ⟨m, hm, by rw [decide_eq_true_eq]; exact ⟨ht, hs ▸ hsid⟩⟩

/-- Membership in the `valid_sport_ids` component of
`CRUDSport.validate_sports_exist`. -/
theorem mem_valid_sport_ids {db : DBState} {sport_ids : List Nat}
    (hne : sport_ids.isEmpty = false) {x : Nat} :
    x ∈ (CRUDSport.validate_sports_exist db sport_ids).1 ↔
      x ∈ sport_ids ∧ sportValid db x := by
  unfold CRUDSport.validate_sports_exist
  rw [if_neg (by simp [hne])]
  simp only [List.mem_dedup, List.mem_map, List.mem_filter, decide_eq_true_eq,
    sportValid]
  constructor
  · rintro ⟨s, ⟨⟨hs, hmem⟩, hdel⟩, rfl⟩
    exact ⟨hmem, s, hs, rfl, hdel⟩
  · rintro ⟨hmem, s, hs, rfl, hdel⟩
    exact ⟨s, ⟨⟨hs, hmem⟩, hdel⟩, rfl⟩

/-- The `valid_sport_ids` component is duplicate-free (it is built with
`dedup`, the model of a Python set). -/
theorem valid_sport_ids_nodup (db : DBState) (sport_ids : List Nat) :
    (CRUDSport.validate_sports_exist db sport_ids).1.Nodup := by
  unfold CRUDSport.validate_sports_exist
  split
  · exact List.nodup_nil
  · exact List.nodup_dedup _

/-- The length comparison performed by `bulk_register_sports` detects
exactly the presence of a missing or soft-deleted requested sport. -/
theorem validate_sports_exist_length_iff {db : DBState} {sport_ids : List Nat}
    (hids : sport_ids.Nodup) :
    (CRUDSport.validate_sports_exist db sport_ids).1.length = sport_ids.length ↔
      ∀ sid ∈ sport_ids, sportValid db sid := by
  rcases hempty : sport_ids.isEmpty with hf | ht
  case true =>
    rw [List.isEmpty_iff] at hempty
    subst hempty
    simp [CRUDSport.validate_sports_exist]
  case false =>
    have hsub : (CRUDSport.validate_sports_exist db sport_ids).1 ⊆ sport_ids := by
      intro x hx
      exact ((mem_valid_sport_ids hempty).mp hx).1
    have hnd := valid_sport_ids_nodup db sport_ids
    constructor
    · intro hlen sid hsid
      have hperm : List.Perm (CRUDSport.validate_sports_exist db sport_ids).1 sport_ids :=
        (List.subperm_of_subset hnd hsub).perm_of_length_le (le_of_eq hlen.symm)
      have : sid ∈ (CRUDSport.validate_sports_exist db sport_ids).1 :=
        hperm.mem_iff.mpr hsid
      exact ((mem_valid_sport_ids hempty).mp this).2
    · intro hall
      have hsub' : sport_ids ⊆ (CRUDSport.validate_sports_exist db sport_ids).1 := by
        intro sid hsid
        exact (mem_valid_sport_ids hempty).mpr ⟨hsid, hall sid hsid⟩
      exact Nat.le_antisymm ((List.subperm_of_subset hnd hsub).length_le)
        ((List.subperm_of_subset hids hsub').length_le)

theorem buildMappingRows_length (startId now : Nat)
    (l : List TenantSportsMappingCreate) :
    (buildMappingRows startId now l).length = l.length := by
  induction l generalizing startId with
  | nil => rfl
  | cons mc rest ih => simp [buildMappingRows, ih]

/-- Counting rows of a given `(tenant, sport)` pair among freshly built
rows only depends on the payloads, not on the assigned ids. -/
theorem countP_buildMappingRows (startId now t s : Nat)
    (l : List TenantSportsMappingCreate) :
    (buildMappingRows startId now l).countP
        (fun m => decide (m.tenant_id = t ∧ m.sport_id = s)) =
      l.countP (fun mc => decide (mc.tenant_id = t ∧ mc.sport_id = s)) := by
  induction l generalizing startId with
  | nil => rfl
  | cons mc rest ih =>
    simp only [buildMappingRows, List.countP_cons, ih]

theorem isEmpty_eq_false_of_ne_nil {α : Type} {l : List α} (h : l ≠ []) :
    l.isEmpty = false := by
  cases hl : l.isEmpty
  · rfl
  · rw [List.isEmpty_iff] at hl; exact absurd hl h

/-- Branch lemma: missing or soft-deleted tenant. -/
theorem bulk_register_tenant_invalid {db : DBState} {tid : Nat}
    {request : BulkRegisterSportRequest} {now : Nat}
    (hne : request.sports ≠ []) (h : ¬ tenantValid db tid) :
    TenantSportsMappingService.bulk_register_sports db tid request now =
      Except.error (ApiError.http 404
        s!"Tenant with ID {tid} not found or has been deleted") := by
  have hval : CRUDTenant.validate_exists db tid = false := by
    cases hv : CRUDTenant.validate_exists db tid
    · rfl
    · exact absurd (validate_exists_iff.mp hv) h
  unfold TenantSportsMappingService.bulk_register_sports
  rw [if_neg (by simp [isEmpty_eq_false_of_ne_nil hne]), if_pos hval]

/-- Branch lemma: some requested sport id is missing or soft-deleted. -/
theorem bulk_register_sport_invalid {db : DBState} {tid : Nat}
    {request : BulkRegisterSportRequest} {now : Nat}
    (htenant : tenantValid db tid)
    (h : ∃ sid ∈ reqSportIds request, ¬ sportValid db sid) :
    TenantSportsMappingService.bulk_register_sports db tid request now =
      Except.error (ApiError.http 404
        "One or more sports not found or have been deleted") := by
  obtain ⟨sid, hsid, hnv⟩ := h
  have hne : request.sports ≠ [] := by
    intro he
    rw [reqSportIds, he] at hsid
    simp at hsid
  have hval : CRUDTenant.validate_exists db tid = true :=
    validate_exists_iff.mpr htenant
  have hlen :
      (CRUDSport.validate_sports_exist db
          ((request.sports.map RegisterSportItem.sport_id).dedup)).1.length ≠
        ((request.sports.map RegisterSportItem.sport_id).dedup).length := by
    rw [Ne, validate_sports_exist_length_iff (List.nodup_dedup _)]
    intro hall
    exact hnv (hall sid (List.mem_dedup.mpr hsid))
  unfold TenantSportsMappingService.bulk_register_sports
  rw [if_neg (by simp [isEmpty_eq_false_of_ne_nil hne])]
  rw [if_neg (by simp [hval])]
  rw [if_pos hlen]

/-- Branch lemma: every requested sport is valid but a mapping already
exists for some requested pair. -/
theorem bulk_register_conflict {db : DBState} {tid : Nat}
    {request : BulkRegisterSportRequest} {now : Nat}
    (htenant : tenantValid db tid)
    (hvalid : ∀ sid ∈ reqSportIds request, sportValid db sid)
    (hex : ∃ sid ∈ reqSportIds request, pairExists db tid sid) :
    TenantSportsMappingService.bulk_register_sports db tid request now =
      Except.error (ApiError.http 400
        "One or more sports are already registered for this tenant") := by
  obtain ⟨sid, hsid, hpair⟩ := hex
  have hne : request.sports ≠ [] := by
    intro he
    rw [reqSportIds, he] at hsid
    simp at hsid
  have hval : CRUDTenant.validate_exists db tid = true :=
    validate_exists_iff.mpr htenant
  have hlen :
      (CRUDSport.validate_sports_exist db
          ((request.sports.map RegisterSportItem.sport_id).dedup)).1.length =
        ((request.sports.map RegisterSportItem.sport_id).dedup).length := by
    rw [validate_sports_exist_length_iff (List.nodup_dedup _)]
    intro x hx
    exact hvalid x (List.mem_dedup.mp hx)
  have hcnt : 0 < CRUDTenantSportsMapping.count_existing_mappings db tid
      ((request.sports.map RegisterSportItem.sport_id).dedup) :=
    count_existing_pos_iff.mpr ⟨sid, List.mem_dedup.mpr hsid, hpair⟩
  unfold TenantSportsMappingService.bulk_register_sports
  rw [if_neg (by simp [isEmpty_eq_false_of_ne_nil hne])]
  rw [if_neg (by simp [hval])]
  rw [if_neg (by simp [hlen])]
  rw [if_pos hcnt]

/-- Branch lemma: all validations pass and the call commits the bulk
insert built from the raw request list. -/
theorem bulk_register_success {db : DBState} {tid : Nat}
    {request : BulkRegisterSportRequest} {now : Nat}
    (hne : request.sports ≠ [])
    (htenant : tenantValid db tid)
    (hvalid : ∀ sid ∈ reqSportIds request, sportValid db sid)
    (hnone : ∀ sid ∈ reqSportIds request, ¬ pairExists db tid sid) :
    TenantSportsMappingService.bulk_register_sports db tid request now =
      Except.ok (CRUDTenantSportsMapping.bulk_create db
        (bulkPayload tid request) now) := by
  have hval : CRUDTenant.validate_exists db tid = true :=
    validate_exists_iff.mpr htenant
  have hlen :
      (CRUDSport.validate_sports_exist db
          ((request.sports.map RegisterSportItem.sport_id).dedup)).1.length =
        ((request.sports.map RegisterSportItem.sport_id).dedup).length := by
    rw [validate_sports_exist_length_iff (List.nodup_dedup _)]
    intro x hx
    exact hvalid x (List.mem_dedup.mp hx)
  have hcnt : ¬ 0 < CRUDTenantSportsMapping.count_existing_mappings db tid
      ((request.sports.map RegisterSportItem.sport_id).dedup) := by
    rw [count_existing_pos_iff]
    rintro ⟨sid, hsid, hpair⟩
    exact hnone sid (List.mem_dedup.mp hsid) hpair
  unfold TenantSportsMappingService.bulk_register_sports
  rw [if_neg (by simp [isEmpty_eq_false_of_ne_nil hne])]
  rw [if_neg (by simp [hval])]
  rw [if_neg (by simp [hlen])]
  rw [if_neg hcnt]

/-- On success `bulk_create` appends exactly the freshly built rows. -/
theorem bulk_create_shape {db : DBState} {payload : List TenantSportsMappingCreate}
    {now : Nat} (hne : payload ≠ []) :
    CRUDTenantSportsMapping.bulk_create db payload now =
      ({ db with
          mappings := db.mappings ++ buildMappingRows db.nextMappingId now payload,
          nextMappingId := db.nextMappingId +
            (buildMappingRows db.nextMappingId now payload).length },
       buildMappingRows db.nextMappingId now payload) := by
  unfold CRUDTenantSportsMapping.bulk_create
  rw [if_neg (by simp [isEmpty_eq_false_of_ne_nil hne])]

theorem bulkRegisterFinalState_of_error {db : DBState} {tid now : Nat}
    {request : BulkRegisterSportRequest} {e : ApiError}
    (h : TenantSportsMappingService.bulk_register_sports db tid request now =
      Except.error e) :
    bulkRegisterFinalState db tid request now = db := by
  unfold bulkRegisterFinalState
  rw [h]

theorem pairExists_iff_pairCount_pos {db : DBState} {t s : Nat} :
    pairExists db t s ↔ 0 < pairCount db t s := by
  rw [pairCount, List.countP_pos_iff]
  unfold pairExists
  constructor
  · rintro ⟨m, hm, h1, h2⟩
    exact ⟨m, hm, by rw [decide_eq_true_eq]; exact ⟨h1, h2⟩⟩
  · rintro ⟨m, hm, h⟩
    rw [decide_eq_true_eq] at h
    exact ⟨m, hm, h⟩

theorem countP_bulkPayload (tid t s : Nat) (request : BulkRegisterSportRequest) :
    (bulkPayload tid request).countP
        (fun mc => decide (mc.tenant_id = t ∧ mc.sport_id = s)) =
      if tid = t then
        request.sports.countP (fun item => decide (item.sport_id = s))
      else 0 := by
  unfold bulkPayload
  rw [List.countP_map]
  by_cases h : tid = t
  · rw [if_pos h]
    subst h
    apply List.countP_congr
    intro item _
    simp
  · rw [if_neg h]
    rw [List.countP_eq_zero]
    intro item _
    simp [h]

theorem mem_buildMappingRows {startId now : Nat}
    {l : List TenantSportsMappingCreate} {m : TenantSportsMapping}
    (h : m ∈ buildMappingRows startId now l) :
    ∃ mc ∈ l, m.tenant_id = mc.tenant_id ∧ m.sport_id = mc.sport_id := by
  induction l generalizing startId with
  | nil => simp [buildMappingRows] at h
  | cons mc rest ih =>
    rw [buildMappingRows, List.mem_cons] at h
    rcases h with h | h
    · subst h
      exact ⟨mc, List.mem_cons_self mc rest, rfl, rfl⟩
    · obtain ⟨mc', hmc', h1, h2⟩ := ih h
      exact ⟨mc', List.mem_cons_of_mem mc hmc', h1, h2⟩

/-! ## C1, C2, C5: the bulk registration workflow -/

/-- **C1**: bulk tenant-sport registration is all-or-nothing.  For a
nonempty request: a missing or soft-deleted tenant yields 404 with the
state unchanged; a missing or soft-deleted requested sport yields 404
with the state unchanged; an existing requested mapping yields 400
(conflict) with the state unchanged; and only when all validations pass
are the rows inserted in one commit, all of them returned. -/
theorem bulk_register_sports_all_or_nothing
    (db : DBState) (tenant_id now : Nat) (request : BulkRegisterSportRequest)
    (hne : request.sports ≠ []) :
    (¬ tenantValid db tenant_id →
      TenantSportsMappingService.bulk_register_sports db tenant_id request now =
        Except.error (ApiError.http 404
          s!"Tenant with ID {tenant_id} not found or has been deleted") ∧
      bulkRegisterFinalState db tenant_id request now = db) ∧
    (tenantValid db tenant_id → (∃ sid ∈ reqSportIds request, ¬ sportValid db sid) →
      TenantSportsMappingService.bulk_register_sports db tenant_id request now =
        Except.error (ApiError.http 404
          "One or more sports not found or have been deleted") ∧
      bulkRegisterFinalState db tenant_id request now = db) ∧
    (tenantValid db tenant_id → (∀ sid ∈ reqSportIds request, sportValid db sid) →
      (∃ sid ∈ reqSportIds request, pairExists db tenant_id sid) →
      TenantSportsMappingService.bulk_register_sports db tenant_id request now =
        Except.error (ApiError.http 400
          "One or more sports are already registered for this tenant") ∧
      bulkRegisterFinalState db tenant_id request now = db) ∧
    (tenantValid db tenant_id → (∀ sid ∈ reqSportIds request, sportValid db sid) →
      (∀ sid ∈ reqSportIds request, ¬ pairExists db tenant_id sid) →
      ∃ rows,
        TenantSportsMappingService.bulk_register_sports db tenant_id request now =
          Except.ok ({ db with
              mappings := db.mappings ++ rows,
              nextMappingId := db.nextMappingId + rows.length }, rows) ∧
        rows.length = request.sports.length) := by
  refine ⟨?_, ?_, ?_, ?_⟩
  · intro h
    have he := @bulk_register_tenant_invalid db tenant_id request now hne h
    exact ⟨he, bulkRegisterFinalState_of_error he⟩
  · intro ht h
    have he := @bulk_register_sport_invalid db tenant_id request now ht h
    exact ⟨he, bulkRegisterFinalState_of_error he⟩
  · intro ht hv h
    have he := @bulk_register_conflict db tenant_id request now ht hv h
    exact ⟨he, bulkRegisterFinalState_of_error he⟩
  · intro ht hv hn
    refine ⟨buildMappingRows db.nextMappingId now (bulkPayload tenant_id request),
      ?_, ?_⟩
    · rw [bulk_register_success hne ht hv hn,
        bulk_create_shape (by simp [bulkPayload, hne])]
    · rw [buildMappingRows_length, bulkPayload, List.length_map]

/-- Witness for C1 at a concrete state: tenant 1 and sports 1, 2 all
valid, no existing mapping. -/
theorem bulk_register_sports_all_or_nothing_witness :
    requestTwoSports.sports ≠ [] ∧
    (∃ rows,
      TenantSportsMappingService.bulk_register_sports dbBase 1 requestTwoSports 5 =
        Except.ok ({ dbBase with
            mappings := dbBase.mappings ++ rows,
            nextMappingId := dbBase.nextMappingId + rows.length }, rows) ∧
      rows.length = requestTwoSports.sports.length) := by
  refine ⟨by decide, ?_⟩
  exact (bulk_register_sports_all_or_nothing dbBase 1 5 requestTwoSports
      (by decide)).2.2.2 (by decide) (by decide) (by decide)

/-- **C5**: if a mapping for `(T, A)` already exists and the request is an
otherwise-valid list containing `A`, the call reports the conflict and the
number of `(T, A)` rows is unchanged (in particular it stays 1 when it was
1). -/
theorem bulk_register_duplicate_rejected
    (db : DBState) (tid now A : Nat) (request : BulkRegisterSportRequest)
    (htenant : tenantValid db tid)
    (hvalid : ∀ sid ∈ reqSportIds request, sportValid db sid)
    (hA : A ∈ reqSportIds request)
    (hex : pairExists db tid A) :
    TenantSportsMappingService.bulk_register_sports db tid request now =
      Except.error (ApiError.http 400
        "One or more sports are already registered for this tenant") ∧
    pairCount (bulkRegisterFinalState db tid request now) tid A =
      pairCount db tid A := by
  have he := @bulk_register_conflict db tid request now htenant hvalid ⟨A, hA, hex⟩
  exact ⟨he, by rw [bulkRegisterFinalState_of_error he]⟩

/-- Witness for C5: sport 1 is registered for tenant 1 in
`dbWithMapping`; registering it again conflicts and the single row
stays. -/
theorem bulk_register_duplicate_rejected_witness :
    pairExists dbWithMapping 1 1 ∧
    pairCount dbWithMapping 1 1 = 1 ∧
    (TenantSportsMappingService.bulk_register_sports dbWithMapping 1
        requestSportOne 7 =
      Except.error (ApiError.http 400
        "One or more sports are already registered for this tenant") ∧
    pairCount (bulkRegisterFinalState dbWithMapping 1 requestSportOne 7) 1 1 =
      pairCount dbWithMapping 1 1) := by
  refine ⟨⟨mappingOne, by decide, by decide, by decide⟩, by decide, ?_⟩
  exact bulk_register_duplicate_rejected dbWithMapping 1 7 1 requestSportOne
    (by decide) (by decide) (by decide)
    ⟨mappingOne, by decide, by decide, by decide⟩

theorem countP_eq_zero_of_not_mem {l : List Nat} {a : Nat} (ha : a ∉ l) :
    l.countP (fun x => decide (x = a)) = 0 := by
  rw [List.countP_eq_zero]
  intro x hx
  rw [decide_eq_true_eq]
  rintro rfl
  exact ha hx

theorem countP_eq_one_of_nodup_mem {l : List Nat} {a : Nat}
    (hnd : l.Nodup) (ha : a ∈ l) :
    l.countP (fun x => decide (x = a)) = 1 := by
  induction l with
  | nil => simp at ha
  | cons b t ih =>
    rw [List.nodup_cons] at hnd
    rw [List.mem_cons] at ha
    rcases ha with rfl | ha
    · rw [List.countP_cons_of_pos _ _ (by simp),
        countP_eq_zero_of_not_mem hnd.1]
    · rw [List.countP_cons_of_neg, ih hnd.2 ha]
      rw [decide_eq_true_eq]
      rintro rfl
      exact hnd.1 ha

/-- Per-item sport-id count in a request, rewritten over the id list. -/
theorem countP_sport_id_eq (request : BulkRegisterSportRequest) (s : Nat) :
    request.sports.countP (fun item => decide (item.sport_id = s)) =
      (reqSportIds request).countP (fun x => decide (x = s)) := by
  rw [reqSportIds, List.countP_map]
  rfl

theorem mem_bulkPayload {tid : Nat} {request : BulkRegisterSportRequest}
    {mc : TenantSportsMappingCreate} (h : mc ∈ bulkPayload tid request) :
    mc.tenant_id = tid ∧ mc.sport_id ∈ reqSportIds request := by
  unfold bulkPayload at h
  rw [List.mem_map] at h
  obtain ⟨item, hitem, rfl⟩ := h
  exact ⟨rfl, List.mem_map.mpr ⟨item, hitem, rfl⟩⟩

/-- **C2 counterexample**: in a state holding one valid tenant (id 1),
valid sports and no mappings, the request listing sport 1 twice passes
every validation (ids are deduplicated for validation) yet inserts two
rows for the pair (1, 1): insertion iterates the raw request list, so the
claimed per-distinct-id deduplication before insertion does not happen
and the at-most-one-row-per-pair invariant breaks. -/
theorem bulk_register_duplicate_request_breaks_invariant :
    (∃ out, TenantSportsMappingService.bulk_register_sports dbBase 1 requestDupSport 5 =
      Except.ok out) ∧
    pairCount (bulkRegisterFinalState dbBase 1 requestDupSport 5) 1 1 = 2 ∧
    ¬ mappingPairUnique (bulkRegisterFinalState dbBase 1 requestDupSport 5) := by
  refine ⟨⟨_, rfl⟩, rfl, by decide⟩

/-- **C2 amended**: requested sport ids are deduplicated for validation
only; a successful `bulk_register_sports` inserts one mapping row per
element of the raw request list.  When the request's sport ids are
duplicate-free this is one row per distinct requested sport id, each
requested pair ends with exactly one row, and the at-most-one-row-per-pair
invariant is preserved. -/
theorem bulk_register_pair_uniqueness_of_nodup_request
    (db db' : DBState) (tid now : Nat) (request : BulkRegisterSportRequest)
    (rows : List TenantSportsMapping)
    (hinv : mappingPairUnique db)
    (hnodup : (reqSportIds request).Nodup)
    (hok : TenantSportsMappingService.bulk_register_sports db tid request now =
      Except.ok (db', rows)) :
    rows.length = request.sports.length ∧
    mappingPairUnique db' ∧
    ∀ sid ∈ reqSportIds request, pairCount db' tid sid = 1 := by
  by_cases hne : request.sports = []
  · unfold TenantSportsMappingService.bulk_register_sports at hok
    rw [if_pos (by simp [hne])] at hok
    exact absurd hok (by simp)
  by_cases htenant : tenantValid db tid
  case neg =>
    rw [@bulk_register_tenant_invalid db tid request now hne htenant] at hok
    exact absurd hok (by simp)
  by_cases hvalid : ∀ sid ∈ reqSportIds request, sportValid db sid
  case neg =>
    push_neg at hvalid
    rw [@bulk_register_sport_invalid db tid request now htenant hvalid] at hok
    exact absurd hok (by simp)
  by_cases hnone : ∀ sid ∈ reqSportIds request, ¬ pairExists db tid sid
  case neg =>
    push_neg at hnone
    rw [@bulk_register_conflict db tid request now htenant hvalid hnone] at hok
    exact absurd hok (by simp)
  rw [@bulk_register_success db tid request now hne htenant hvalid hnone,
    bulk_create_shape (by simp [bulkPayload, hne])] at hok
  rw [Except.ok.injEq, Prod.mk.injEq] at hok
  obtain ⟨hdb', hrows⟩ := hok
  subst hdb'
  subst hrows
  have hcount : ∀ t s : Nat,
      (db.mappings ++
          buildMappingRows db.nextMappingId now (bulkPayload tid request)).countP
          (fun m => decide (m.tenant_id = t ∧ m.sport_id = s)) =
        pairCount db t s +
          if tid = t then
            (reqSportIds request).countP (fun x => decide (x = s))
          else 0 := by
    intro t s
    rw [List.countP_append, countP_buildMappingRows, countP_bulkPayload]
    by_cases h : tid = t
    · rw [if_pos h, if_pos h, countP_sport_id_eq]
    · rw [if_neg h, if_neg h]
  have hzero : ∀ s ∈ reqSportIds request, pairCount db tid s = 0 := by
    intro s hs
    by_contra hpos
    exact hnone s hs (pairExists_iff_pairCount_pos.mpr (Nat.pos_of_ne_zero hpos))
  refine ⟨by rw [buildMappingRows_length, bulkPayload, List.length_map], ?_, ?_⟩
  · intro m hm
    show (db.mappings ++ _).countP _ ≤ 1
    rw [hcount m.tenant_id m.sport_id]
    rw [List.mem_append] at hm
    by_cases htid : tid = m.tenant_id
    · by_cases hsid : m.sport_id ∈ reqSportIds request
      · have h0 : pairCount db m.tenant_id m.sport_id = 0 := by
          rw [← htid]; exact hzero m.sport_id hsid
        rw [if_pos htid, h0, countP_eq_one_of_nodup_mem hnodup hsid]
      · rw [if_pos htid, countP_eq_zero_of_not_mem hsid, Nat.add_zero]
        rcases hm with hm | hm
        · exact htid ▸ hinv m hm
        · obtain ⟨mc, hmc, _, h2⟩ := mem_buildMappingRows hm
          exact absurd (h2 ▸ (mem_bulkPayload hmc).2) hsid
    · rw [if_neg htid, Nat.add_zero]
      rcases hm with hm | hm
      · exact hinv m hm
      · obtain ⟨mc, hmc, h1, _⟩ := mem_buildMappingRows hm
        exact absurd (h1 ▸ (mem_bulkPayload hmc).1).symm htid
  · intro sid hsid
    show (db.mappings ++ _).countP _ = 1
    rw [hcount tid sid, if_pos rfl, hzero sid hsid,
      countP_eq_one_of_nodup_mem hnodup hsid]

/-- Witness for the amended C2 at a concrete state: a duplicate-free
two-sport request on an empty mapping table. -/
theorem bulk_register_pair_uniqueness_of_nodup_request_witness :
    mappingPairUnique dbBase ∧ (reqSportIds requestTwoSports).Nodup ∧
    ∃ db' rows,
      TenantSportsMappingService.bulk_register_sports dbBase 1 requestTwoSports 5 =
        Except.ok (db', rows) ∧
      (rows.length = requestTwoSports.sports.length ∧
       mappingPairUnique db' ∧
       ∀ sid ∈ reqSportIds requestTwoSports, pairCount db' 1 sid = 1) := by
  refine ⟨by decide, by decide, _, _, rfl, ?_⟩
  exact bulk_register_pair_uniqueness_of_nodup_request dbBase _ 1 5
    requestTwoSports _ (by decide) (by decide) rfl

/-! ## C4: tenant-code validation -/

/-- **C4 counterexample**: `A-B_` contains `-`, a character outside
alphanumerics and underscore, so the claim demands rejection; the
validator accepts it (the check is `isalnum() or '_' in v`, so any string
containing an underscore passes) and stores it unchanged (already upper
case). -/
theorem validate_tenant_code_counterexample :
    validate_tenant_code "A-B_" = Except.ok "A-B_" ∧
    specTenantCodeOk "A-B_" = false := by
  constructor
  · rfl
  · rfl

/-- **C4 amended**: a tenant_code is accepted exactly when it is entirely
alphanumeric (Python `isalnum`) OR contains at least one underscore —
in the latter case arbitrary other characters are admitted; on acceptance
the stored value is the uppercased input, on rejection the validator
raises `ValueError`. -/
theorem validate_tenant_code_accepts_iff (v : String) :
    validate_tenant_code v =
      (if pyIsAlnum v = true ∨ v.data.contains '_' = true then
        Except.ok (pyUpper v)
      else
        Except.error "tenant_code must be alphanumeric or contain underscores") := by
  unfold validate_tenant_code
  cases ha : pyIsAlnum v <;> cases hb : v.data.contains '_' <;> simp

/-! ## C3: tenant listing with a sports_id filter -/

/-- **C3** (code bug): the tenant list operation cannot succeed at all —
with or without a `sports_id` filter — because `_apply_filters`
unconditionally reads `query_params.sports_id`, a field the
`TenantQueryParams` schema does not declare, raising `AttributeError`
before any filtering or DISTINCT counting happens. -/
theorem tenant_list_always_attribute_error
    (db : DBState) (qp : TenantQueryParams) :
    TenantService.get_tenants db qp =
      Except.error (ApiError.attributeError
        "TenantQueryParams object has no attribute sports_id") := rfl

/-! ## C7: sport pagination consistency -/

/-- **C7**: for any filter set, the sports list `total_count` equals the
number of rows matching the filter predicate with no skip/limit applied;
it does not depend on skip and limit; and `has_next_page` is exactly
`(skip + limit) < total_count`, a pure function of those three values. -/
theorem sport_pagination_consistency
    (db : DBState) (qp qp' : SportQueryParams)
    (hstatus : qp'.status = qp.status) (hcat : qp'.category = qp.category)
    (hsid : qp'.search_id = qp.search_id) (hsearch : qp'.search = qp.search)
    (hdel : qp'.include_deleted = qp.include_deleted) :
    (SportService.get_sports db qp).total_count =
      (db.sports.filter (sportBaseFilter qp)).length ∧
    (SportService.get_sports db qp').total_count =
      (SportService.get_sports db qp).total_count ∧
    (SportService.get_sports db qp).has_next_page =
      decide (qp.skip + qp.limit < (SportService.get_sports db qp).total_count) := by
  have heq : sportCountFilter qp = sportBaseFilter qp := by
    funext s
    rfl
  have hsame : sportCountFilter qp' = sportCountFilter qp := by
    funext s
    unfold sportCountFilter
    rw [hstatus, hcat, hsid, hsearch, hdel]
  refine ⟨?_, ?_, rfl⟩
  · show (db.sports.filter (sportCountFilter qp)).length = _
    rw [heq]
  · show (db.sports.filter (sportCountFilter qp')).length =
      (db.sports.filter (sportCountFilter qp)).length
    rw [hsame]

/-- Witness for C7: the two parameter sets share all filters and differ
in skip/limit. -/
theorem sport_pagination_consistency_witness :
    sportQPb.status = sportQPa.status ∧
    ((SportService.get_sports dbBase sportQPa).total_count =
      (dbBase.sports.filter (sportBaseFilter sportQPa)).length ∧
    (SportService.get_sports dbBase sportQPb).total_count =
      (SportService.get_sports dbBase sportQPa).total_count ∧
    (SportService.get_sports dbBase sportQPa).has_next_page =
      decide (sportQPa.skip + sportQPa.limit <
        (SportService.get_sports dbBase sportQPa).total_count)) :=
  ⟨rfl, sport_pagination_consistency dbBase sportQPa sportQPb rfl rfl rfl rfl rfl⟩

theorem length_filter_key_le_one {α β : Type} [DecidableEq β] {l : List α}
    {f : α → β} (hnd : (l.map f).Nodup) (b : β) :
    (l.filter (fun a => decide (f a = b))).length ≤ 1 := by
  induction l with
  | nil => simp
  | cons a t ih =>
    rw [List.map_cons, List.nodup_cons] at hnd
    by_cases h : f a = b
    · rw [List.filter_cons_of_pos (by simp [h])]
      have hnil : t.filter (fun y => decide (f y = b)) = [] := by
        rw [List.filter_eq_nil_iff]
        intro y hy
        rw [decide_eq_true_eq]
        intro hfy
        apply hnd.1
        rw [h, ← hfy]
        exact List.mem_map_of_mem f hy
      rw [hnil]
      simp
    · rw [List.filter_cons_of_neg (by simp [h])]
      exact ih hnd.2

theorem filter_key_eq_singleton {α β : Type} [DecidableEq β] {l : List α}
    {f : α → β} (hnd : (l.map f).Nodup) {x : α} (hx : x ∈ l) :
    l.filter (fun a => decide (f a = f x)) = [x] := by
  induction l with
  | nil => simp at hx
  | cons a t ih =>
    rw [List.map_cons, List.nodup_cons] at hnd
    by_cases hax : x = a
    · subst hax
      rw [List.filter_cons_of_pos (by simp)]
      have hnil : t.filter (fun y => decide (f y = f x)) = [] := by
        rw [List.filter_eq_nil_iff]
        intro y hy
        rw [decide_eq_true_eq]
        intro hfy
        exact hnd.1 (hfy ▸ List.mem_map_of_mem f hy)
      rw [hnil]
    · have hx' : x ∈ t := (List.mem_cons.mp hx).resolve_left hax
      have hne : f a ≠ f x := by
        intro he
        exact hnd.1 (he ▸ List.mem_map_of_mem f hx')
      rw [List.filter_cons_of_neg (by simp [hne])]
      exact ih hnd.2 hx'

/-- With unique primary keys, `get` on a present row returns it. -/
theorem CRUDTenant_get_of_mem {db : DBState} {X : Tenant}
    (hids : tenantIdsNodup db) (hmem : X ∈ db.tenants) :
    CRUDTenant.get db X.id = Except.ok (some X) := by
  unfold CRUDTenant.get
  rw [filter_key_eq_singleton hids hmem]
  rfl

/-- With unique codes, `get_by_code` on a present row returns it. -/
theorem CRUDTenant_get_by_code_of_mem {db : DBState} {X : Tenant}
    (hcodes : tenantCodesNodup db) (hmem : X ∈ db.tenants) :
    CRUDTenant.get_by_code db X.tenant_code = Except.ok (some X) := by
  unfold CRUDTenant.get_by_code
  rw [filter_key_eq_singleton hcodes hmem]
  rfl

/-! ## C6: soft-delete visibility for tenants -/

/-- **C6** (code bug): for a soft-deleted tenant X, `get_tenant` and
`get_tenant_by_code` raise 404 exactly as claimed; but the claimed list
behaviour (`include_deleted=true` includes X, `false` excludes X) cannot
hold: the list operation raises `AttributeError` for every parameter set,
because `_apply_filters` reads the undeclared `sports_id` field before
the `is_deleted` filter is ever applied. -/
theorem soft_deleted_tenant_visibility
    (db : DBState) (X : Tenant) (qp : TenantQueryParams)
    (hids : tenantIdsNodup db) (hcodes : tenantCodesNodup db)
    (hmem : X ∈ db.tenants) (hdel : X.is_deleted = true) :
    TenantService.get_tenant db X.id =
      Except.error (ApiError.http 404
        s!"Tenant with ID {X.id} has been deleted") ∧
    TenantService.get_tenant_by_code db X.tenant_code =
      Except.error (ApiError.http 404
        s!"Tenant with code {X.tenant_code} not found") ∧
    TenantService.get_tenants db qp =
      Except.error (ApiError.attributeError
        "TenantQueryParams object has no attribute sports_id") := by
  refine ⟨?_, ?_, rfl⟩
  · have hred : TenantService.get_tenant db X.id =
        (if X.is_deleted = true then
          Except.error (ApiError.http 404
            s!"Tenant with ID {X.id} has been deleted")
        else Except.ok X) := by
      unfold TenantService.get_tenant
      rw [CRUDTenant_get_of_mem hids hmem]
      rfl
    rw [hred, if_pos hdel]
  · have hred : TenantService.get_tenant_by_code db X.tenant_code =
        (if X.is_deleted = true then
          Except.error (ApiError.http 404
            s!"Tenant with code {X.tenant_code} not found")
        else Except.ok X) := by
      unfold TenantService.get_tenant_by_code
      rw [CRUDTenant_get_by_code_of_mem hcodes hmem]
      rfl
    rw [hred, if_pos hdel]

/-- Witness for C6: the soft-deleted `tenantTwoDeleted` inside `dbBase`,
listed with `include_deleted = true`. -/
theorem soft_deleted_tenant_visibility_witness :
    tenantTwoDeleted ∈ dbBase.tenants ∧
    tenantTwoDeleted.is_deleted = true ∧
    (TenantService.get_tenant dbBase tenantTwoDeleted.id =
      Except.error (ApiError.http 404
        s!"Tenant with ID {tenantTwoDeleted.id} has been deleted") ∧
    TenantService.get_tenant_by_code dbBase tenantTwoDeleted.tenant_code =
      Except.error (ApiError.http 404
        s!"Tenant with code {tenantTwoDeleted.tenant_code} not found") ∧
    TenantService.get_tenants dbBase tenantQPincludeDeleted =
      Except.error (ApiError.attributeError
        "TenantQueryParams object has no attribute sports_id")) :=
  ⟨by decide, by decide,
    soft_deleted_tenant_visibility dbBase tenantTwoDeleted tenantQPincludeDeleted
      (by decide) (by decide) (by decide) (by decide)⟩

/-! ## C10: mapping update by composite key -/

/-- **C10**: updating a mapping by `(tenant_id, sport_id)` raises 404 if
and only if no mapping row with that pair exists, and succeeds whenever
one does — the path performs no tenant or sport existence or soft-delete
check (the witness runs it against a state whose only tenant is
soft-deleted). -/
theorem update_mapping_by_pair_not_found_iff
    (db : DBState) (tid sid now : Nat) (u : TenantSportsMappingUpdate)
    (hlen : (db.mappings.filter
      (fun m => decide (m.tenant_id = tid ∧ m.sport_id = sid))).length ≤ 1) :
    (TenantSportsMappingService.update_mapping_by_tenant_sport db tid sid u now =
        Except.error (ApiError.http 404
          s!"Mapping for tenant {tid} and sport {sid} not found") ↔
      ¬ pairExists db tid sid) ∧
    (pairExists db tid sid →
      ∃ out,
        TenantSportsMappingService.update_mapping_by_tenant_sport db tid sid u now =
          Except.ok out) := by
  have hbind :
      TenantSportsMappingService.update_mapping_by_tenant_sport db tid sid u now =
        match (db.mappings.filter
          (fun m => decide (m.tenant_id = tid ∧ m.sport_id = sid))).head? with
        | none =>
          Except.error (ApiError.http 404
            s!"Mapping for tenant {tid} and sport {sid} not found")
        | some m =>
          Except.ok (CRUDBase.update (jsonableMapping m) (mappingUpdateDump u) now) := by
    unfold TenantSportsMappingService.update_mapping_by_tenant_sport
      CRUDTenantSportsMapping.get_by_tenant_and_sport
    rw [scalarOneOrNone_eq_head hlen]
    rfl
  cases hf : db.mappings.filter
      (fun m => decide (m.tenant_id = tid ∧ m.sport_id = sid)) with
  | nil =>
    have hnp : ¬ pairExists db tid sid := by
      rintro ⟨m, hm, h1, h2⟩
      have hmem : m ∈ db.mappings.filter
          (fun m => decide (m.tenant_id = tid ∧ m.sport_id = sid)) :=
        List.mem_filter.mpr ⟨hm, by rw [decide_eq_true_eq]; exact ⟨h1, h2⟩⟩
      rw [hf] at hmem
      simp at hmem
    rw [hbind, hf]
    exact ⟨⟨fun _ => hnp, fun _ => rfl⟩, fun hex => absurd hex hnp⟩
  | cons m rest =>
    have hp : pairExists db tid sid := by
      have hmem : m ∈ db.mappings.filter
          (fun m => decide (m.tenant_id = tid ∧ m.sport_id = sid)) := by
        rw [hf]
        exact List.mem_cons_self m rest
      rw [List.mem_filter, decide_eq_true_eq] at hmem
      exact ⟨m, hmem.1, hmem.2⟩
    rw [hbind, hf]
    refine ⟨⟨fun h => absurd h (by simp), fun hnp => absurd hp hnp⟩, fun _ => ⟨_, rfl⟩⟩

/-- Witness for C10: the mapping `(2, 1)` exists while tenant 2 is
soft-deleted; the update still succeeds. -/
theorem update_mapping_by_pair_not_found_iff_witness :
    ((dbDeletedTenantWithMapping.mappings.filter
      (fun m => decide (m.tenant_id = 2 ∧ m.sport_id = 1))).length ≤ 1) ∧
    (∀ t ∈ dbDeletedTenantWithMapping.tenants, t.is_deleted = true) ∧
    ((TenantSportsMappingService.update_mapping_by_tenant_sport
        dbDeletedTenantWithMapping 2 1 mappingUpdInactive 9 =
        Except.error (ApiError.http 404
          s!"Mapping for tenant {2} and sport {1} not found") ↔
      ¬ pairExists dbDeletedTenantWithMapping 2 1) ∧
    (pairExists dbDeletedTenantWithMapping 2 1 →
      ∃ out,
        TenantSportsMappingService.update_mapping_by_tenant_sport
          dbDeletedTenantWithMapping 2 1 mappingUpdInactive 9 =
          Except.ok out)) :=
  ⟨by decide, by decide,
    update_mapping_by_pair_not_found_iff dbDeletedTenantWithMapping 2 1 9
      mappingUpdInactive (by decide)⟩

theorem lookupPy_applyUpdateData (obj upd : List (String × PyVal)) (f : String) :
    lookupPy (applyUpdateData obj upd) f =
      match lookupPy obj f with
      | some w => some ((lookupPy upd f).getD w)
      | none => none := by
  induction obj with
  | nil => rfl
  | cons kv t ih =>
    obtain ⟨k, v⟩ := kv
    by_cases hk : k = f
    · subst hk
      cases hu : lookupPy upd k <;> simp [applyUpdateData, lookupPy, hu]
    · cases hu : lookupPy upd k <;>
        simp only [applyUpdateData, List.map_cons, lookupPy, hu, if_neg hk] <;>
        exact ih

theorem lookupPy_cons (k : String) (v : PyVal) (t : List (String × PyVal))
    (f : String) :
    lookupPy ((k, v) :: t) f = if k = f then some v else lookupPy t f := rfl

theorem refreshUpdatedAt_eq_of_key (now : Nat) (v : PyVal) :
    refreshUpdatedAt now ("updated_at", v) = ("updated_at", PyVal.num (now : Int)) := rfl

theorem refreshUpdatedAt_eq_of_ne (now : Nat) (k : String) (v : PyVal)
    (hk : k ≠ "updated_at") :
    refreshUpdatedAt now (k, v) = (k, v) := by
  unfold refreshUpdatedAt
  rw [if_neg hk]

theorem lookupPy_refresh_ne (l : List (String × PyVal)) (now : Nat) (f : String)
    (hf : f ≠ "updated_at") :
    lookupPy (l.map (refreshUpdatedAt now)) f = lookupPy l f := by
  induction l with
  | nil => rfl
  | cons kv t ih =>
    obtain ⟨k, v⟩ := kv
    rw [List.map_cons]
    by_cases hk : k = "updated_at"
    · subst hk
      rw [refreshUpdatedAt_eq_of_key, lookupPy_cons, lookupPy_cons,
        if_neg (Ne.symm hf), if_neg (Ne.symm hf), ih]
    · rw [refreshUpdatedAt_eq_of_ne now k v hk, lookupPy_cons, lookupPy_cons]
      by_cases hkf : k = f
      · rw [if_pos hkf, if_pos hkf]
      · rw [if_neg hkf, if_neg hkf, ih]

theorem lookupPy_refresh_updated_at (l : List (String × PyVal)) (now : Nat) :
    lookupPy (l.map (refreshUpdatedAt now)) "updated_at" =
      (lookupPy l "updated_at").map (fun _ => PyVal.num (now : Int)) := by
  induction l with
  | nil => rfl
  | cons kv t ih =>
    obtain ⟨k, v⟩ := kv
    rw [List.map_cons]
    by_cases hk : k = "updated_at"
    · subst hk
      rw [refreshUpdatedAt_eq_of_key, lookupPy_cons, lookupPy_cons,
        if_pos rfl, if_pos rfl]
      rfl
    · rw [refreshUpdatedAt_eq_of_ne now k v hk, lookupPy_cons, lookupPy_cons,
        if_neg hk, if_neg hk, ih]

/-! ## C9: partial update frame property -/

/-- **C9**: the generic partial update (`CRUDBase.update`, here applied to
a tenant row) modifies only the fields explicitly set in the partial
input: every field not present in `model_dump(exclude_unset=True)` keeps
its previous value, and `updated_at` refreshes to the commit instant. -/
theorem crud_update_partial_frame (t : Tenant) (u : TenantUpdate) (now : Nat)
    (f : String)
    (hunset : lookupPy (tenantUpdateDump u) f = none)
    (hfu : f ≠ "updated_at") :
    lookupPy (CRUDBase.update (jsonableTenant t) (tenantUpdateDump u) now) f =
      lookupPy (jsonableTenant t) f ∧
    lookupPy (CRUDBase.update (jsonableTenant t) (tenantUpdateDump u) now)
      "updated_at" = some (PyVal.num (now : Int)) := by
  constructor
  · unfold CRUDBase.update
    rw [lookupPy_refresh_ne _ _ _ hfu, lookupPy_applyUpdateData, hunset]
    cases lookupPy (jsonableTenant t) f <;> rfl
  · unfold CRUDBase.update
    rw [lookupPy_refresh_updated_at, lookupPy_applyUpdateData]
    have hup : lookupPy (jsonableTenant t) "updated_at" =
        some (PyVal.num (t.updated_at : Int)) := rfl
    rw [hup]
    rfl

/-- Witness for C9: updating only `status` on `tenantOne` leaves `name`
as it was and refreshes `updated_at`. -/
theorem crud_update_partial_frame_witness :
    lookupPy (tenantUpdateDump updStatusOnly) "name" = none ∧
    (lookupPy (CRUDBase.update (jsonableTenant tenantOne)
        (tenantUpdateDump updStatusOnly) 5) "name" =
      lookupPy (jsonableTenant tenantOne) "name" ∧
    lookupPy (CRUDBase.update (jsonableTenant tenantOne)
        (tenantUpdateDump updStatusOnly) 5) "updated_at" =
      some (PyVal.num (5 : Int))) :=
  ⟨rfl, crud_update_partial_frame tenantOne updStatusOnly 5 "name" rfl
    (by decide)⟩

/-- With a successful existence check, `update_tenant` reduces to the
code-conflict check followed by the generic update. -/
theorem update_tenant_eq (db : DBState) (tid : Nat) (X : Tenant)
    (u : TenantUpdate) (now : Nat)
    (hget : TenantService.get_tenant db tid = Except.ok X) :
    TenantService.update_tenant db tid u now =
      match tenantUpdateCodeCheck db tid X u with
      | Except.error e => Except.error e
      | Except.ok _ =>
        Except.ok (CRUDBase.update (jsonableTenant X) (tenantUpdateDump u) now) := by
  unfold TenantService.update_tenant
  rw [hget]

/-! ## C8: tenant-code uniqueness on write -/

/-- **C8**: `create_tenant` conflicts exactly when any existing row
(soft-deleted included) carries the requested code, and succeeds
otherwise; `update_tenant` on an existing live row with a truthy
`tenant_code` in the input conflicts exactly when that code differs from
the row's current code and belongs to a different row, while setting the
code to its current value (a no-op rename) succeeds; an update that does
not set `tenant_code` at all (`u0`) never conflicts. -/
theorem tenant_code_uniqueness_on_write
    (db : DBState) (tin : TenantCreate) (g : String) (i now : Nat)
    (X : Tenant) (u u0 : TenantUpdate) (c : String)
    (hcodes : tenantCodesNodup db) (hids : tenantIdsNodup db)
    (hmem : X ∈ db.tenants) (hdel : X.is_deleted = false)
    (hcode : u.tenant_code.join = some c) (hcne : c.data.isEmpty = false)
    (hu0 : u0.tenant_code.join = none) :
    (TenantService.create_tenant db tin g i now =
        Except.error (ApiError.http 400
          s!"Tenant with code {tin.tenant_code} already exists") ↔
      ∃ e ∈ db.tenants, e.tenant_code = tin.tenant_code) ∧
    ((¬ ∃ e ∈ db.tenants, e.tenant_code = tin.tenant_code) →
      ∃ out, TenantService.create_tenant db tin g i now = Except.ok out) ∧
    (TenantService.update_tenant db X.id u now =
        Except.error (ApiError.http 400
          s!"Tenant with code {c} already exists") ↔
      (c ≠ X.tenant_code ∧
        ∃ e ∈ db.tenants, e.tenant_code = c ∧ e.id ≠ X.id)) ∧
    (c = X.tenant_code →
      ∃ out, TenantService.update_tenant db X.id u now = Except.ok out) ∧
    (∃ out, TenantService.update_tenant db X.id u0 now = Except.ok out) := by
  have hlenc := @length_filter_key_le_one Tenant String _ db.tenants
    Tenant.tenant_code hcodes tin.tenant_code
  have hgetc : CRUDTenant.get_by_code db tin.tenant_code =
      Except.ok (db.tenants.filter
        (fun t => decide (t.tenant_code = tin.tenant_code))).head? := by
    unfold CRUDTenant.get_by_code
    exact scalarOneOrNone_eq_head hlenc
  have hcreate :
      (TenantService.create_tenant db tin g i now =
          Except.error (ApiError.http 400
            s!"Tenant with code {tin.tenant_code} already exists") ↔
        ∃ e ∈ db.tenants, e.tenant_code = tin.tenant_code) ∧
      ((¬ ∃ e ∈ db.tenants, e.tenant_code = tin.tenant_code) →
        ∃ out, TenantService.create_tenant db tin g i now = Except.ok out) := by
    cases hf : db.tenants.filter
        (fun t => decide (t.tenant_code = tin.tenant_code)) with
    | nil =>
      have hno : ¬ ∃ e ∈ db.tenants, e.tenant_code = tin.tenant_code := by
        rintro ⟨e, he, hc⟩
        have hin : e ∈ db.tenants.filter
            (fun t => decide (t.tenant_code = tin.tenant_code)) :=
          List.mem_filter.mpr ⟨he, by rw [decide_eq_true_eq]; exact hc⟩
        rw [hf] at hin
        simp at hin
      have hok : TenantService.create_tenant db tin g i now =
          Except.ok
            ({ db with tenants := db.tenants ++ [createdTenant tin g i now] },
             createdTenant tin g i now) := by
        unfold TenantService.create_tenant
        rw [hgetc, hf]
        rfl
      refine ⟨?_, fun _ => ⟨_, hok⟩⟩
      rw [hok]
      exact ⟨fun h => absurd h (by simp), fun hex => absurd hex hno⟩
    | cons e rest =>
      have he : e ∈ db.tenants ∧ e.tenant_code = tin.tenant_code := by
        have hin : e ∈ db.tenants.filter
            (fun t => decide (t.tenant_code = tin.tenant_code)) := by
          rw [hf]
          exact List.mem_cons_self e rest
        rw [List.mem_filter, decide_eq_true_eq] at hin
        exact hin
      have herr : TenantService.create_tenant db tin g i now =
          Except.error (ApiError.http 400
            s!"Tenant with code {tin.tenant_code} already exists") := by
        unfold TenantService.create_tenant
        rw [hgetc, hf]
        rfl
      exact ⟨by rw [herr]; exact ⟨fun _ => ⟨e, he.1, he.2⟩, fun _ => rfl⟩,
        fun hno => absurd ⟨e, he.1, he.2⟩ hno⟩
  have hgetX : TenantService.get_tenant db X.id = Except.ok X := by
    have hred : TenantService.get_tenant db X.id =
        (if X.is_deleted = true then
          Except.error (ApiError.http 404
            s!"Tenant with ID {X.id} has been deleted")
        else Except.ok X) := by
      unfold TenantService.get_tenant
      rw [CRUDTenant_get_of_mem hids hmem]
      rfl
    rw [hred, if_neg (by rw [hdel]; simp)]
  have humatch := update_tenant_eq db X.id X u now hgetX
  have humatch0 := update_tenant_eq db X.id X u0 now hgetX
  have hchku0 : tenantUpdateCodeCheck db X.id X u0 = Except.ok () := by
    unfold tenantUpdateCodeCheck
    rw [hu0]
  have hu0ok : ∃ out, TenantService.update_tenant db X.id u0 now = Except.ok out := by
    refine ⟨CRUDBase.update (jsonableTenant X) (tenantUpdateDump u0) now, ?_⟩
    rw [humatch0, hchku0]
  have hchk0 : tenantUpdateCodeCheck db X.id X u =
      (if c.data.isEmpty = false ∧ c ≠ X.tenant_code then
        match CRUDTenant.get_by_code db c with
        | Except.error e => Except.error e
        | Except.ok (some e) =>
          if e.id ≠ X.id then
            Except.error (ApiError.http 400
              s!"Tenant with code {c} already exists")
          else Except.ok ()
        | Except.ok none => Except.ok ()
      else Except.ok ()) := by
    unfold tenantUpdateCodeCheck
    rw [hcode]
  by_cases hcc : c = X.tenant_code
  · have hchk : tenantUpdateCodeCheck db X.id X u = Except.ok () := by
      rw [hchk0, if_neg]
      rintro ⟨-, hne⟩
      exact hne hcc
    refine ⟨hcreate.1, hcreate.2, ?_, fun _ => ?_, hu0ok⟩
    · rw [humatch, hchk]
      constructor
      · intro h
        simp at h
      · rintro ⟨hne, -⟩
        exact absurd hcc hne
    · refine ⟨CRUDBase.update (jsonableTenant X) (tenantUpdateDump u) now, ?_⟩
      rw [humatch, hchk]
  · have hlenc2 := @length_filter_key_le_one Tenant String _ db.tenants
      Tenant.tenant_code hcodes c
    have hgetc2 : CRUDTenant.get_by_code db c =
        Except.ok (db.tenants.filter
          (fun t => decide (t.tenant_code = c))).head? := by
      unfold CRUDTenant.get_by_code
      exact scalarOneOrNone_eq_head hlenc2
    cases hf2 : db.tenants.filter (fun t => decide (t.tenant_code = c)) with
    | nil =>
      have hno2 : ¬ ∃ e ∈ db.tenants, e.tenant_code = c ∧ e.id ≠ X.id := by
        rintro ⟨e, he, hc, -⟩
        have hin : e ∈ db.tenants.filter (fun t => decide (t.tenant_code = c)) :=
          List.mem_filter.mpr ⟨he, by rw [decide_eq_true_eq]; exact hc⟩
        rw [hf2] at hin
        simp at hin
      have hchk : tenantUpdateCodeCheck db X.id X u = Except.ok () := by
        rw [hchk0, if_pos ⟨hcne, hcc⟩, hgetc2, hf2]
        rfl
      refine ⟨hcreate.1, hcreate.2, ?_, fun heq => absurd heq hcc, hu0ok⟩
      rw [humatch, hchk]
      constructor
      · intro h
        simp at h
      · rintro ⟨-, hex⟩
        exact absurd hex hno2
    | cons e rest =>
      have hein : e ∈ db.tenants ∧ e.tenant_code = c := by
        have hin : e ∈ db.tenants.filter (fun t => decide (t.tenant_code = c)) := by
          rw [hf2]
          exact List.mem_cons_self e rest
        rw [List.mem_filter, decide_eq_true_eq] at hin
        exact hin
      have heid : e.id ≠ X.id := by
        intro he
        have hex : e = X :=
          List.inj_on_of_nodup_map hids hein.1 hmem he
        exact hcc (hex ▸ hein.2).symm
      have hchk : tenantUpdateCodeCheck db X.id X u =
          Except.error (ApiError.http 400
            s!"Tenant with code {c} already exists") := by
        rw [hchk0, if_pos ⟨hcne, hcc⟩, hgetc2, hf2]
        show (if e.id ≠ X.id then
            Except.error (ApiError.http 400
              s!"Tenant with code {c} already exists")
          else Except.ok ()) =
          Except.error (ApiError.http 400
            s!"Tenant with code {c} already exists")
        exact if_pos heid
      refine ⟨hcreate.1, hcreate.2, ?_, fun heq => absurd heq hcc, hu0ok⟩
      rw [humatch, hchk]
      exact ⟨fun _ => ⟨hcc, e, hein.1, hein.2, heid⟩, fun _ => rfl⟩

/-- Witness for C8: creating with the taken code `ACME` conflicts;
renaming tenant 1 to the free code `ACME2` succeeds. -/
theorem tenant_code_uniqueness_on_write_witness :
    tenantOne ∈ dbBase.tenants ∧ tenantOne.is_deleted = false ∧
    updCodeOnly.tenant_code.join = some "ACME2" ∧
    ((TenantService.create_tenant dbBase createAcme "uuid-9" 9 9 =
        Except.error (ApiError.http 400
          s!"Tenant with code {createAcme.tenant_code} already exists") ↔
      ∃ e ∈ dbBase.tenants, e.tenant_code = createAcme.tenant_code) ∧
    ((¬ ∃ e ∈ dbBase.tenants, e.tenant_code = createAcme.tenant_code) →
      ∃ out, TenantService.create_tenant dbBase createAcme "uuid-9" 9 9 =
        Except.ok out) ∧
    (TenantService.update_tenant dbBase tenantOne.id updCodeOnly 9 =
        Except.error (ApiError.http 400
          "Tenant with code ACME2 already exists") ↔
      ("ACME2" ≠ tenantOne.tenant_code ∧
        ∃ e ∈ dbBase.tenants, e.tenant_code = "ACME2" ∧ e.id ≠ tenantOne.id)) ∧
    ("ACME2" = tenantOne.tenant_code →
      ∃ out, TenantService.update_tenant dbBase tenantOne.id updCodeOnly 9 =
        Except.ok out) ∧
    (∃ out, TenantService.update_tenant dbBase tenantOne.id updStatusOnly 9 =
      Except.ok out)) :=
  ⟨by decide, by decide, rfl,
    tenant_code_uniqueness_on_write dbBase createAcme "uuid-9" 9 9 tenantOne
      updCodeOnly updStatusOnly "ACME2" (by decide) (by decide) (by decide)
      (by decide) rfl (by decide) rfl⟩

end CTMS
